import Mathlib

/-!
Shallow embedding of the notification-attribution subsystem of the
`niri_window_buttons` module, together with proofs about the claims of its
specification.

The embedding follows the Rust sources:
* `src/notifications.rs` — `NotificationData` and its pid resolution;
* `src/notifications/pid_cache.rs` — the bus-identity → pid cache worker;
* `src/system.rs` — the `/proc/<pid>/stat` parent-pid resolver;
* `src/lib.rs` — `ModuleInstance::handle_notification`, the two-phase
  window/notification matcher, and `ProcessWindowMap`;
* `src/global.rs` — `SharedState::create_event_stream`, the event
  coordinator with the deferred workspace stream.

Rust machine integers are modelled as `Nat`/`Int` (no arithmetic in this
subsystem overflows), `Result`/`Option` as `Except`/`Option`, hash maps as
functional maps `κ → Option ν`, and the asynchronous environment (D-Bus
daemon, `/proc` reads, clock) as explicit oracle parameters.  Character
case-folding is modelled on ASCII (`Char.toLower`), which covers every
string these claims touch.
-/

/-! ## String primitives

Rust's `str::split(char)` (which keeps empty tokens between consecutive
separators), `str::to_lowercase`, `str::contains(char)` and
`split(..).next_back()` are modelled over `String.data` so that every
definition reduces in the kernel. -/

/-- Accumulator-style splitter: `splitChAux c l cur` splits `l` at every
occurrence of `c`, `cur` being the (reversed) token under construction.
Mirrors the semantics of Rust `str::split(char)`: empty tokens are kept and
a trailing separator yields a final empty token. -/
def splitChAux (c : Char) : List Char → List Char → List (List Char)
  | [], cur => [cur.reverse]
  | x :: xs, cur =>
    if x = c then cur.reverse :: splitChAux c xs []
    else splitChAux c xs (x :: cur)

/-- Rust `s.split(c)` collected into a list. -/
def splitCh (c : Char) (s : String) : List String :=
  (splitChAux c s.data []).map String.mk

/-- Rust `s.to_lowercase()` (ASCII model). -/
def lowerStr (s : String) : String :=
  String.mk (s.data.map Char.toLower)

/-- Rust `s.contains(c)`. -/
def containsCh (c : Char) (s : String) : Bool :=
  s.data.contains c

/-- Rust `s.split('.').next_back().unwrap_or_default()`: the final
dot-separated segment of `s` (the whole of `s` when it has no dot). -/
def lastSeg (s : String) : String :=
  (splitCh '.' s).getLastD ""

/-- Digit run to number, for `parseI64`. -/
def digitsToNat (l : List Char) : Nat :=
  l.foldl (fun acc c => acc * 10 + (c.toNat - 48)) 0

/-- Rust `str::parse::<i64>()`: an optional sign followed by a nonempty
run of ASCII digits, rejected when the value falls outside the `i64`
range. -/
def parseI64 (s : String) : Option Int :=
  let core : Option Int :=
    match s.data with
    | '-' :: rest =>
      if rest ≠ [] ∧ rest.all Char.isDigit then some (-(digitsToNat rest : Int)) else none
    | '+' :: rest =>
      if rest ≠ [] ∧ rest.all Char.isDigit then some (digitsToNat rest : Int) else none
    | l =>
      if l ≠ [] ∧ l.all Char.isDigit then some (digitsToNat l : Int) else none
  match core with
  | some v => if v < -(2 ^ 63) ∨ 2 ^ 63 - 1 < v then none else some v
  | none => none

/-! ## `src/system.rs` — the process-ancestry resolver -/

/-- Outcome of reading `/proc/<pid>/stat`, the environment oracle for
`ProcessInfo.query`: the file may fail to open, fail to read, or yield its
contents. -/
inductive ReadOutcome where
  | ok (content : String)
  | openFailed
  | readFailed
deriving DecidableEq

/-- `ProcessError` from `src/system.rs` (the `glib`/`io` payloads of the
two unavailability variants are dropped; only the variant and the pid
matter to callers). -/
inductive ProcessError where
  | malformedStat (pid : Int)
  | invalidPpid (value : String) (pid : Int)
  | fileOpen (pid : Int)
  | fileRead (pid : Int)
deriving DecidableEq

/-- `ProcessInfo` from `src/system.rs`. -/
structure ProcessInfo where
  parent_id : Option Int
deriving DecidableEq

/-- `ProcessInfo::query` from `src/system.rs` lines 14–41: read
`/proc/<pid>/stat` once (via the `readProc` oracle), take the fourth
`' '`-separated token, parse it as an `i64`, and normalize a parent pid of
0 to `none`. -/
def ProcessInfo.query (readProc : Int → ReadOutcome) (pid : Int) :
    Except ProcessError ProcessInfo :=
  match readProc pid with
  | .openFailed => .error (.fileOpen pid)
  | .readFailed => .error (.fileRead pid)
  | .ok content =>
    match (splitCh ' ' content)[3]? with
    | none => .error (.malformedStat pid)
    | some ppidStr =>
      match parseI64 ppidStr with
      | none => .error (.invalidPpid ppidStr pid)
      | some ppid => .ok ⟨if ppid = 0 then none else some ppid⟩

/-- The whitespace-separated fields of a string: maximal runs of
non-whitespace characters.  This is not used by the embedded code; it
formalizes the *specification's* wording "fourth whitespace-separated
field" so that it can be compared with what `ProcessInfo.query` actually
does. -/
def whitespaceFields (s : String) : List String :=
  ((splitChAux ' ' s.data []).filter (fun t => t ≠ [])).map String.mk

/-! ## `src/notifications.rs` — attributed notifications -/

/-- `HintData` from `src/notifications.rs` lines 100–105. -/
structure HintData where
  desktop_entry : Option String
  sender_pid : Option Int
deriving DecidableEq

/-- `NotificationContent` from `src/notifications.rs` (the fields this
subsystem reads; the remaining payload fields play no role in any
claim). -/
structure NotificationContent where
  summary : String
  hints : HintData
deriving DecidableEq

/-- `NotificationData` from `src/notifications.rs` lines 32–36:
`process_id` is the bus-cache-resolved pid (a `u32`, set from
`PidCache::query` on the message's sender), while
`notification.hints.sender_pid` is the pid hint embedded in the
notification itself. -/
structure NotificationData where
  notification : NotificationContent
  process_id : Option Nat
deriving DecidableEq

/-- `NotificationData::get_process_id` from `src/notifications.rs` lines
43–48. -/
def NotificationData.get_process_id (n : NotificationData) : Option Int :=
  match n.process_id with
  | some pid => some (Int.ofNat pid)
  | none => n.notification.hints.sender_pid

/-! ## `src/settings.rs` — the configuration consumed by the matcher -/

/-- `NotificationConfig` from `src/settings.rs` lines 36–46 (the regex
`apps` table is unrelated to these claims; the `map_app_ids` hash map is a
functional map). -/
structure NotificationConfig where
  enabled : Bool
  map_app_ids : String → Option String
  use_desktop_entry : Bool
  use_fuzzy_matching : Bool

/-- The slice of `Settings` from `src/settings.rs` that
`handle_notification` consults. -/
structure Settings where
  notifications : NotificationConfig

/-- `Settings::notifications_enabled`. -/
def Settings.notifications_enabled (s : Settings) : Bool :=
  s.notifications.enabled

/-- `Settings::notifications_app_map`. -/
def Settings.notifications_app_map (s : Settings) (app_id : String) : Option String :=
  s.notifications.map_app_ids app_id

/-- `Settings::notifications_use_desktop_entry`. -/
def Settings.notifications_use_desktop_entry (s : Settings) : Bool :=
  s.notifications.use_desktop_entry

/-- `Settings::notifications_use_fuzzy_matching`. -/
def Settings.notifications_use_fuzzy_matching (s : Settings) : Bool :=
  s.notifications.use_fuzzy_matching

/-! ## Window data (compositor side) -/

/-- Modelled from the spec: `src/compositor.rs` is not among the provided
sources, so `WindowInfo` follows §3 of the specification — id: opaque
unique identifier (`u64`), optional `app_id` and `title`, optional `pid`,
`is_focused`, optional `output` name.  Pids are `Int` because `lib.rs`
widens them with `i64::from` before use. -/
structure WindowInfo where
  id : Nat
  app_id : Option String
  title : Option String
  pid : Option Int
  is_focused : Bool
  output : Option String
deriving DecidableEq

/-- Modelled from the spec: §3 defines `WindowSnapshot` as an ordered
collection of `WindowInfo`, replaced wholesale on each update. -/
abbrev WindowSnapshot := List WindowInfo

/-! ## `src/lib.rs` — the window-notification matcher -/

/-- Insertion of one window into the pid map (`filter_map` + `collect` of
`ProcessWindowMap::build`): a window with a pid overrides any earlier
window with the same pid, a window without a pid is skipped. -/
def pidMapStep (m : Int → Option WindowInfo) (w : WindowInfo) : Int → Option WindowInfo :=
  match w.pid with
  | some p => fun q => if q = p then some w else m q
  | none => m

/-- `ProcessWindowMap::build` from `src/lib.rs` lines 343–357: a
`HashMap<i64, &WindowInfo>` collected from every window that has a pid.
Collecting an iterator into a hash map keeps the *last* entry inserted for
a duplicated key, which the left fold with override reproduces.
`ProcessWindowMap::lookup` is function application. -/
def buildPidMap (windows : List WindowInfo) : Int → Option WindowInfo :=
  windows.foldl pidMapStep (fun _ => none)

/-- The pid-chain walk of `ModuleInstance::handle_notification`
(`src/lib.rs` lines 172–203): at each pid, a non-focused window from the
pid map whose id has a button is marked urgent (`matched` is set), then the
parent pid is resolved with `ProcessInfo::query`; the loop continues with
the parent and stops when the chain ends (`parent_id = none`) or
resolution fails.  The source loop has no fuel; `fuel` bounds the walk so
the model is total (every run of the source that terminates is a run of
the model with enough fuel).  Returns the marked ids in order and the
final `matched` flag. -/
def phase1Loop (readProc : Int → ReadOutcome) (buttons : List Nat)
    (pmap : Int → Option WindowInfo) :
    Nat → Int → List Nat → Bool → List Nat × Bool
  | 0, _, marks, matched => (marks, matched)
  | fuel + 1, process_id, marks, matched =>
    let step : List Nat × Bool :=
      match pmap process_id with
      | some w =>
        if !w.is_focused && buttons.contains w.id then (marks ++ [w.id], true)
        else (marks, matched)
      | none => (marks, matched)
    match ProcessInfo.query readProc process_id with
    | .ok info =>
      match info.parent_id with
      | some parent => phase1Loop readProc buttons pmap fuel parent step.1 step.2
      | none => step
    | .error _ => step

/-- One step of the phase-2 scan of `handle_notification` (`src/lib.rs`
lines 231–259), the loop body over `windows.iter()`.  The accumulator is
`(exact marks so far, exact_match flag, fuzzy_matches ids)`. -/
def phase2step (buttons : List Nat) (mapped_entry entry_lower entry_sfx : String)
    (fuzzy_enabled : Bool) (acc : List Nat × Bool × List Nat) (w : WindowInfo) :
    List Nat × Bool × List Nat :=
  match w.app_id with
  | none => acc
  | some app_identifier =>
    if app_identifier = mapped_entry then
      if buttons.contains w.id then (acc.1 ++ [w.id], true, acc.2.2) else acc
    else if fuzzy_enabled then
      if lowerStr app_identifier = entry_lower then
        (acc.1, acc.2.1, acc.2.2 ++ [w.id])
      else if containsCh '.' app_identifier then
        if lowerStr (lastSeg app_identifier) = entry_sfx then
          (acc.1, acc.2.1, acc.2.2 ++ [w.id])
        else acc
      else acc
    else acc

/-- Phase 2 of `handle_notification` (`src/lib.rs` lines 222–267), given
the desktop-entry hint: remap the entry through the configuration, scan all
windows collecting exact marks (marked on the spot, flag set only when the
window's button exists) and fuzzy candidates, then mark the fuzzy
candidates that have buttons only when no exact match was flagged.
Returns the marked ids in order. -/
def phase2marks (settings : Settings) (buttons : List Nat)
    (windows : List WindowInfo) (desktop_entry : String) : List Nat :=
  let fuzzy_enabled := settings.notifications_use_fuzzy_matching
  let mapped_entry := (settings.notifications_app_map desktop_entry).getD desktop_entry
  let entry_lower := lowerStr mapped_entry
  let entry_sfx := lowerStr (lastSeg mapped_entry)
  let scan := windows.foldl
    (phase2step buttons mapped_entry entry_lower entry_sfx fuzzy_enabled)
    ([], false, [])
  if scan.2.1 then scan.1
  else scan.1 ++ scan.2.2.filter (fun window_id => buttons.contains window_id)

/-- Result of `ModuleInstance::handle_notification`: the window ids whose
buttons were marked urgent (in marking order), and whether control reached
the identifier-matching section (everything after the
`if matched {return}` short-circuit at `src/lib.rs` line 205). -/
structure NotifOutcome where
  marks : List Nat
  phase2_entered : Bool
deriving DecidableEq

/-- `ModuleInstance::handle_notification` from `src/lib.rs` lines 166–268.
`buttons` is the key set of `self.buttons` (the windows that currently
have buttons); marking a window's button is modelled by recording its id.
`readProc` is the `/proc` oracle consumed by `ProcessInfo::query`. -/
def handle_notification (readProc : Int → ReadOutcome) (fuel : Nat)
    (settings : Settings) (buttons : List Nat)
    (previous_snapshot : Option WindowSnapshot)
    (notif : NotificationData) : NotifOutcome :=
  match previous_snapshot with
  | none => ⟨[], false⟩
  | some windows =>
    let p1 : List Nat × Bool :=
      match notif.get_process_id with
      | some process_id =>
        phase1Loop readProc buttons (buildPidMap windows) fuel process_id [] false
      | none => ([], false)
    if p1.2 then ⟨p1.1, false⟩
    else if !settings.notifications_use_desktop_entry then ⟨p1.1, true⟩
    else
      match notif.notification.hints.desktop_entry with
      | none => ⟨p1.1, true⟩
      | some desktop_entry =>
        ⟨p1.1 ++ phase2marks settings buttons windows desktop_entry, true⟩

/-! ### Declarative views of the matcher, used to state the theorems -/

/-- The pids visited by the phase-1 walk from `pid`, following
`ProcessInfo.query` until the chain ends, resolution fails, or `fuel` runs
out. -/
def chainPids (readProc : Int → ReadOutcome) : Nat → Int → List Int
  | 0, _ => []
  | fuel + 1, pid =>
    pid :: (match ProcessInfo.query readProc pid with
            | .ok info =>
              match info.parent_id with
              | some parent => chainPids readProc fuel parent
              | none => []
            | .error _ => [])

/-- The mark (if any) that the phase-1 walk produces at one pid: the
pid-map window, when it is not focused and its id has a button. -/
def chainMark (buttons : List Nat) (pmap : Int → Option WindowInfo) (pid : Int) :
    Option Nat :=
  match pmap pid with
  | some w => if !w.is_focused && buttons.contains w.id then some w.id else none
  | none => none

/-- The ids of the windows whose `app_id` equals `mapped_entry` exactly
and whose id has a button, in window order (the exact marks of
phase 2). -/
def exactButtonIds (buttons : List Nat) (mapped_entry : String)
    (windows : List WindowInfo) : List Nat :=
  windows.filterMap fun w =>
    match w.app_id with
    | some a =>
      if a = mapped_entry then
        if buttons.contains w.id then some w.id else none
      else none
    | none => none

/-- Whether some window has an exact `app_id` match *and* a button — the
condition under which the source sets its `exact_match` flag. -/
def hasExactButtoned (buttons : List Nat) (mapped_entry : String)
    (windows : List WindowInfo) : Bool :=
  windows.any fun w =>
    match w.app_id with
    | some a => decide (a = mapped_entry) && buttons.contains w.id
    | none => false

/-- The fuzzy candidate produced by one window: a non-exact `app_id` that
matches case-insensitively, or whose final dot-separated segment matches
the entry's final segment case-insensitively. -/
def fuzzyCand (mapped_entry entry_lower entry_sfx : String) (w : WindowInfo) :
    Option Nat :=
  match w.app_id with
  | none => none
  | some a =>
    if a = mapped_entry then none
    else if lowerStr a = entry_lower then some w.id
    else if containsCh '.' a then
      if lowerStr (lastSeg a) = entry_sfx then some w.id else none
    else none

/-- All fuzzy-candidate ids for a remapped entry, in window order. -/
def fuzzyIds (mapped_entry : String) (windows : List WindowInfo) : List Nat :=
  windows.filterMap
    (fuzzyCand mapped_entry (lowerStr mapped_entry) (lowerStr (lastSeg mapped_entry)))

/-! ## `src/notifications/pid_cache.rs` — the process-identity cache -/

/-- `CacheEntry` from `src/notifications/pid_cache.rs` lines 60–64.
Timestamps are logical (`Nat`); `pid: none` is a valid cached "unknown"
result. -/
structure CacheEntry where
  pid : Option Nat
  expires_at : Nat
deriving DecidableEq

/-- `CacheStorage` from `src/notifications/pid_cache.rs` lines 163–167,
with the entry hash map as a functional map. -/
structure CacheStorage where
  entries : String → Option CacheEntry
  ttl : Nat

/-- `CacheStorage::remove_expired` (the periodic sweep body): retain the
entries whose expiry is still in the future. -/
def CacheStorage.remove_expired (s : CacheStorage) (current_time : Nat) : CacheStorage :=
  { s with
    entries := fun c =>
      match s.entries c with
      | some e => if e.expires_at > current_time then some e else none
      | none => none }

/-- `CacheStorage::retrieve`: on a hit the entry's expiry is pushed to
`now + ttl` (sliding TTL) and the cached pid is returned; absence of the
key is a miss.  `now` stands for `SystemTime::now()`. -/
def CacheStorage.retrieve (s : CacheStorage) (connection : String) (now : Nat) :
    CacheStorage × Option (Option Nat) :=
  match s.entries connection with
  | some e =>
    ({ s with
       entries := fun c =>
         if c = connection then some ⟨e.pid, now + s.ttl⟩ else s.entries c },
     some e.pid)
  | none => (s, none)

/-- `CacheStorage::store`: insert (or replace) the entry with a fresh
expiry. -/
def CacheStorage.store (s : CacheStorage) (connection : String) (pid : Option Nat)
    (now : Nat) : CacheStorage :=
  { s with
    entries := fun c =>
      if c = connection then some ⟨pid, now + s.ttl⟩ else s.entries c }

/-- `CacheStorage::evict`: remove the entry outright. -/
def CacheStorage.evict (s : CacheStorage) (connection : String) : CacheStorage :=
  { s with entries := fun c => if c = connection then none else s.entries c }

/-- What one `CacheRequest::Query` produced: the updated storage, the
response sent on the oneshot channel (`none` when the worker dropped the
channel without responding), and whether a daemon lookup
(`get_connection_unix_process_id`) was performed. -/
structure QueryOutcome where
  storage : CacheStorage
  response : Option (Option Nat)
  daemon_called : Bool

/-- `handle_cache_request` from `src/notifications/pid_cache.rs` lines
144–161: answer from the cache on a hit; otherwise, when the connection
string is a valid unique name (`validName`), ask the daemon (`daemon`
oracle) and store a successful result.  A failed lookup stores nothing and
sends no response. -/
def handle_cache_request (validName : String → Bool) (daemon : String → Option Nat)
    (storage : CacheStorage) (connection : String) (now : Nat) : QueryOutcome :=
  match storage.retrieve connection now with
  | (s', some cached_pid) => ⟨s', some cached_pid, false⟩
  | (s', none) =>
    if validName connection then
      match daemon connection with
      | some pid => ⟨s'.store connection (some pid) now, some (some pid), true⟩
      | none => ⟨s', none, true⟩
    else ⟨s', none, false⟩

/-- The arguments of a D-Bus `NameOwnerChanged` signal. -/
structure NameOwnerChangedArgs where
  name : String
  old_owner : Option String
  new_owner : Option String
deriving DecidableEq

/-- `process_dbus_event` from `src/notifications/pid_cache.rs` lines
126–142: on an ownership change with a new owner, proactively resolve and
cache the new owner's pid; with no new owner, evict the old owner's
entry. -/
def process_dbus_event (daemon : String → Option Nat) (storage : CacheStorage)
    (args : NameOwnerChangedArgs) (now : Nat) : CacheStorage :=
  match args.new_owner with
  | some new_connection =>
    match daemon new_connection with
    | some pid => storage.store new_connection (some pid) now
    | none => storage
  | none =>
    match args.old_owner with
    | some old_connection => storage.evict old_connection
    | none => storage

/-! ## `src/global.rs` — the event coordinator -/

/-- `EventMessage` from `src/global.rs` lines 69–73 (payloads dropped;
only the tag matters to the coordination logic). -/
inductive EventMessage where
  | Notification
  | WindowUpdate
  | Workspaces
deriving DecidableEq

/-- The externally visible actions of the coordinator system: a producer
event arrives (a notification, a window snapshot, or a workspace-change
signal from the compositor), or the consumer takes the next event off the
shared channel. -/
inductive CoordInput where
  | arriveNotif
  | arriveWindow
  | arriveWorkspace
  | consume
deriving DecidableEq

/-- State of the coordinator of `SharedState::create_event_stream`
(`src/global.rs` lines 45–66): the shared unbounded channel's queue,
whether `workspace_stream_delay` still holds the deferred
`(tx, workspace stream)` pair, whether `forward_workspace_changes` has
been spawned, and the events the consumer has observed. -/
structure CoordState where
  queue : List EventMessage
  delayHeld : Bool
  spawned : Bool
  delivered : List EventMessage
deriving DecidableEq

/-- The initial coordinator state: empty channel, deferred pair held,
workspace forwarder not spawned. -/
def coordInit : CoordState := ⟨[], true, false, []⟩

/-- One step of the coordinator.  Notification and window producers
(`forward_notifications`, `forward_window_updates`) push into the channel
unconditionally.  A workspace-change signal is forwarded into the channel
by `forward_workspace_changes` only once that task is spawned; before
that, the signal is lost (nothing polls the stream).  On `consume`, the
source stream body (`src/global.rs` lines 57–64) runs: it `take`s the
deferred pair if still held — on *any* event — and spawns
`forward_workspace_changes` only when the consumed event
`matches!(EventMessage::Workspaces(_))`; then the event is yielded. -/
def coordStep (s : CoordState) : CoordInput → CoordState
  | .arriveNotif => { s with queue := s.queue ++ [.Notification] }
  | .arriveWindow => { s with queue := s.queue ++ [.WindowUpdate] }
  | .arriveWorkspace =>
    if s.spawned then { s with queue := s.queue ++ [.Workspaces] } else s
  | .consume =>
    match s.queue with
    | [] => s
    | e :: rest =>
      let spawned :=
        if s.delayHeld then
          match e with
          | .Workspaces => true
          | _ => s.spawned
        else s.spawned
      { queue := rest, delayHeld := false, spawned := spawned,
        delivered := s.delivered ++ [e] }

/-- Run the coordinator over a schedule of inputs. -/
def coordRun (inputs : List CoordInput) : CoordState :=
  inputs.foldl coordStep coordInit

/-! ## Helper lemmas -/

/-- Inserting a window whose pid is not `p` leaves the map unchanged at
`p`. -/
theorem pidMapStep_ne (m : Int → Option WindowInfo) (w : WindowInfo) (p : Int)
    (h : w.pid ≠ some p) : pidMapStep m w p = m p := by
  unfold pidMapStep
  cases hpid : w.pid with
  | none => rfl
  | some q =>
    have hq : p ≠ q := by
      intro e
      exact h (by rw [hpid, e])
    simp [hq]

/-- Inserting a window whose pid is `p` makes it the map's entry at `p`. -/
theorem pidMapStep_eq (m : Int → Option WindowInfo) (w : WindowInfo) (p : Int)
    (h : w.pid = some p) : pidMapStep m w p = some w := by
  unfold pidMapStep
  rw [h]
  simp

/-- Folding windows none of which carry pid `p` leaves the map unchanged
at `p`. -/
theorem foldl_pidMapStep_ne (p : Int) :
    ∀ (l : List WindowInfo) (m : Int → Option WindowInfo),
      (∀ w' ∈ l, w'.pid ≠ some p) → (l.foldl pidMapStep m) p = m p := by
  intro l
  induction l with
  | nil => intro m _; rfl
  | cons w l ih =>
    intro m h
    rw [List.foldl_cons, ih (pidMapStep m w) (fun w' hw' => h w' (List.mem_cons_of_mem _ hw'))]
    exact pidMapStep_ne m w p (h w (List.mem_cons_self _ _))

/-- The pid map retains the *last* window of the snapshot with a given
pid: if `w` has pid `p` and no window after it does, the built map sends
`p` to `w`. -/
theorem buildPidMap_last (l₁ l₂ : List WindowInfo) (w : WindowInfo) (p : Int)
    (hw : w.pid = some p) (h₂ : ∀ w' ∈ l₂, w'.pid ≠ some p) :
    buildPidMap (l₁ ++ w :: l₂) p = some w := by
  unfold buildPidMap
  rw [List.foldl_append, List.foldl_cons, foldl_pidMapStep_ne p l₂ _ h₂]
  exact pidMapStep_eq _ w p hw

/-- Characterization of the phase-1 walk: starting from `(marks, matched)`
it appends exactly the marks collected along the visited chain, and the
final flag is the old flag or-ed with "some mark was collected". -/
theorem phase1Loop_eq (readProc : Int → ReadOutcome) (buttons : List Nat)
    (pmap : Int → Option WindowInfo) (fuel : Nat) :
    ∀ (pid : Int) (marks : List Nat) (matched : Bool),
      phase1Loop readProc buttons pmap fuel pid marks matched =
        (marks ++ (chainPids readProc fuel pid).filterMap (chainMark buttons pmap),
         matched ||
           !((chainPids readProc fuel pid).filterMap (chainMark buttons pmap)).isEmpty) := by
  induction fuel with
  | zero =>
    intro pid marks matched
    simp [phase1Loop, chainPids]
  | succ fuel ih =>
    intro pid marks matched
    simp only [phase1Loop, chainPids]
    cases hq : ProcessInfo.query readProc pid with
    | error e =>
      dsimp only
      cases hm : pmap pid with
      | none => simp [chainMark, hm]
      | some w =>
        by_cases hfoc : w.is_focused = true <;> by_cases hbtn : w.id ∈ buttons <;>
          simp [chainMark, hm, hfoc, hbtn]
    | ok info =>
      cases hp : info.parent_id with
      | none =>
        dsimp only
        cases hm : pmap pid with
        | none => simp [chainMark, hm, hp]
        | some w =>
          by_cases hfoc : w.is_focused = true <;> by_cases hbtn : w.id ∈ buttons <;>
            simp [chainMark, hm, hp, hfoc, hbtn]
      | some parent =>
        dsimp only
        rw [hp]
        dsimp only
        rw [ih parent]
        cases hm : pmap pid with
        | none => simp [chainMark, hm]
        | some w =>
          by_cases hfoc : w.is_focused = true <;> by_cases hbtn : w.id ∈ buttons <;>
            simp [chainMark, hm, hfoc, hbtn]

/-- Characterization of the phase-2 scan: starting from any accumulator,
the fold appends the buttoned exact marks, or-accumulates the exact flag,
and appends the fuzzy candidates (collected only when fuzzy matching is
enabled). -/
theorem phase2scan_eq (buttons : List Nat) (mapped_entry entry_lower entry_sfx : String)
    (fuzzy_enabled : Bool) :
    ∀ (ws : List WindowInfo) (em : List Nat) (fl : Bool) (fz : List Nat),
      ws.foldl (phase2step buttons mapped_entry entry_lower entry_sfx fuzzy_enabled)
        (em, fl, fz) =
        (em ++ exactButtonIds buttons mapped_entry ws,
         fl || hasExactButtoned buttons mapped_entry ws,
         fz ++ (if fuzzy_enabled
                then ws.filterMap (fuzzyCand mapped_entry entry_lower entry_sfx)
                else [])) := by
  intro ws
  induction ws with
  | nil =>
    intro em fl fz
    simp [exactButtonIds, hasExactButtoned]
  | cons w ws ih =>
    intro em fl fz
    rw [List.foldl_cons]
    cases ha : w.app_id with
    | none =>
      rw [show phase2step buttons mapped_entry entry_lower entry_sfx fuzzy_enabled
            (em, fl, fz) w = (em, fl, fz) by simp [phase2step, ha]]
      rw [ih]
      simp [exactButtonIds, hasExactButtoned, fuzzyCand, ha]
    | some a =>
      by_cases hm : a = mapped_entry
      · by_cases hbtn : w.id ∈ buttons
        · rw [show phase2step buttons mapped_entry entry_lower entry_sfx fuzzy_enabled
                (em, fl, fz) w = (em ++ [w.id], true, fz) by simp [phase2step, ha, hm, hbtn]]
          rw [ih]
          simp [exactButtonIds, hasExactButtoned, fuzzyCand, ha, hm, hbtn]
        · rw [show phase2step buttons mapped_entry entry_lower entry_sfx fuzzy_enabled
                (em, fl, fz) w = (em, fl, fz) by simp [phase2step, ha, hm, hbtn]]
          rw [ih]
          simp [exactButtonIds, hasExactButtoned, fuzzyCand, ha, hm, hbtn]
      · cases hfe : fuzzy_enabled with
        | false =>
          simp only [hfe] at ih
          rw [show phase2step buttons mapped_entry entry_lower entry_sfx false
                (em, fl, fz) w = (em, fl, fz) by simp [phase2step, ha, hm]]
          rw [ih]
          simp [exactButtonIds, hasExactButtoned, fuzzyCand, ha, hm]
        | true =>
          simp only [hfe] at ih
          by_cases hlow : lowerStr a = entry_lower
          · rw [show phase2step buttons mapped_entry entry_lower entry_sfx true
                  (em, fl, fz) w = (em, fl, fz ++ [w.id]) by simp [phase2step, ha, hm, hlow]]
            rw [ih]
            simp [exactButtonIds, hasExactButtoned, fuzzyCand, ha, hm, hlow]
          · by_cases hdot : containsCh '.' a = true
            · by_cases hsfx : lowerStr (lastSeg a) = entry_sfx
              · rw [show phase2step buttons mapped_entry entry_lower entry_sfx true
                      (em, fl, fz) w = (em, fl, fz ++ [w.id]) by
                      simp [phase2step, ha, hm, hlow, hdot, hsfx]]
                rw [ih]
                simp [exactButtonIds, hasExactButtoned, fuzzyCand, ha, hm, hlow, hdot, hsfx]
              · rw [show phase2step buttons mapped_entry entry_lower entry_sfx true
                      (em, fl, fz) w = (em, fl, fz) by
                      simp [phase2step, ha, hm, hlow, hdot, hsfx]]
                rw [ih]
                simp [exactButtonIds, hasExactButtoned, fuzzyCand, ha, hm, hlow, hdot, hsfx]
            · rw [show phase2step buttons mapped_entry entry_lower entry_sfx true
                    (em, fl, fz) w = (em, fl, fz) by simp [phase2step, ha, hm, hlow, hdot]]
              rw [ih]
              simp [exactButtonIds, hasExactButtoned, fuzzyCand, ha, hm, hlow, hdot]

/-- When no window has both an exact match and a button, the exact mark
list is empty. -/
theorem exactButtonIds_eq_nil (buttons : List Nat) (mapped_entry : String) :
    ∀ ws : List WindowInfo, hasExactButtoned buttons mapped_entry ws = false →
      exactButtonIds buttons mapped_entry ws = [] := by
  intro ws
  induction ws with
  | nil => intro _; rfl
  | cons w ws ih =>
    intro h
    simp only [hasExactButtoned, List.any_cons, Bool.or_eq_false_iff] at h
    obtain ⟨h1, h2⟩ := h
    have ihr : exactButtonIds buttons mapped_entry ws = [] :=
      ih (by simpa [hasExactButtoned] using h2)
    simp only [exactButtonIds, List.filterMap_cons] at ihr ⊢
    cases ha : w.app_id with
    | none => simpa [ha] using ihr
    | some a =>
      rw [ha] at h1
      by_cases hm : a = mapped_entry
      · have hbtn : w.id ∉ buttons := by simpa [hm] using h1
        simpa [hm, hbtn] using ihr
      · simpa [hm] using ihr

/-- `phase2marks` in declarative form: when some buttoned window matches
the remapped entry exactly, precisely the buttoned exact matches are
marked; otherwise the buttoned fuzzy candidates are marked when fuzzy
matching is enabled, and nothing is marked when it is disabled. -/
theorem phase2marks_eq (settings : Settings) (buttons : List Nat)
    (windows : List WindowInfo) (desktop_entry : String) :
    phase2marks settings buttons windows desktop_entry =
      (let mapped_entry := (settings.notifications_app_map desktop_entry).getD desktop_entry
       if hasExactButtoned buttons mapped_entry windows then
         exactButtonIds buttons mapped_entry windows
       else if settings.notifications_use_fuzzy_matching then
         (fuzzyIds mapped_entry windows).filter (fun window_id => buttons.contains window_id)
       else []) := by
  unfold phase2marks fuzzyIds
  dsimp only
  rw [phase2scan_eq]
  cases hex : hasExactButtoned buttons
      ((settings.notifications_app_map desktop_entry).getD desktop_entry) windows with
  | true => simp [hex]
  | false =>
    cases hfe : settings.notifications_use_fuzzy_matching with
    | true =>
      simp [hex, hfe, exactButtonIds_eq_nil _ _ windows hex]
    | false =>
      simp [hex, hfe, exactButtonIds_eq_nil _ _ windows hex]

/-- The sweep preserves the ttl configuration. -/
theorem remove_expired_ttl (s : CacheStorage) (t : Nat) :
    (s.remove_expired t).ttl = s.ttl := rfl

/-- A sequence of sweeps, all earlier than an entry's expiry, leaves that
entry untouched. -/
theorem sweeps_preserve (conn : String) (e : CacheEntry) :
    ∀ (ts : List Nat) (st : CacheStorage),
      st.entries conn = some e → (∀ t ∈ ts, t < e.expires_at) →
      (ts.foldl (fun a t => a.remove_expired t) st).entries conn = some e ∧
      (ts.foldl (fun a t => a.remove_expired t) st).ttl = st.ttl := by
  intro ts
  induction ts with
  | nil => intro st h _; exact ⟨h, rfl⟩
  | cons t ts ih =>
    intro st h hts
    have ht : t < e.expires_at := hts t (List.mem_cons_self _ _)
    have h1 : (st.remove_expired t).entries conn = some e := by
      simp [CacheStorage.remove_expired, h, ht]
    have hrec := ih (st.remove_expired t) h1
      (fun t' ht' => hts t' (List.mem_cons_of_mem _ ht'))
    rw [List.foldl_cons]
    exact ⟨hrec.1, by rw [hrec.2, remove_expired_ttl]⟩

/-- The invariant that proves the workspace stream dead: the workspace
forwarder is not spawned, and no workspace event sits in the channel or
has been delivered. -/
def coordOk (s : CoordState) : Prop :=
  s.spawned = false ∧ EventMessage.Workspaces ∉ s.queue ∧
    EventMessage.Workspaces ∉ s.delivered

/-- `coordOk` is preserved by every coordinator step: a workspace signal
is dropped while the forwarder is not spawned, and the forwarder is only
spawned on consuming a workspace event — which the invariant rules out of
the queue. -/
theorem coordStep_ok (s : CoordState) (i : CoordInput) (h : coordOk s) :
    coordOk (coordStep s i) := by
  obtain ⟨h1, h2, h3⟩ := h
  cases i with
  | arriveNotif =>
    refine ⟨h1, ?_, h3⟩
    simp only [coordStep]
    intro hmem
    rcases List.mem_append.mp hmem with hl | hr
    · exact h2 hl
    · simp at hr
  | arriveWindow =>
    refine ⟨h1, ?_, h3⟩
    simp only [coordStep]
    intro hmem
    rcases List.mem_append.mp hmem with hl | hr
    · exact h2 hl
    · simp at hr
  | arriveWorkspace =>
    simp only [coordStep, h1]
    exact ⟨h1, h2, h3⟩
  | consume =>
    cases hq : s.queue with
    | nil =>
      unfold coordOk
      simp only [coordStep, hq]
      exact ⟨h1, by simp, h3⟩
    | cons e rest =>
      rw [hq] at h2
      have he : e ≠ EventMessage.Workspaces := by
        intro hcontra
        exact h2 (hcontra ▸ List.mem_cons_self _ _)
      have hrest : EventMessage.Workspaces ∉ rest :=
        fun hmem => h2 (List.mem_cons_of_mem _ hmem)
      unfold coordOk
      cases e with
      | Notification =>
        simp only [coordStep, hq]
        refine ⟨by simp [h1], hrest, ?_⟩
        intro hmem
        rcases List.mem_append.mp hmem with hl | hr
        · exact h3 hl
        · simp at hr
      | WindowUpdate =>
        simp only [coordStep, hq]
        refine ⟨by simp [h1], hrest, ?_⟩
        intro hmem
        rcases List.mem_append.mp hmem with hl | hr
        · exact h3 hl
        · simp at hr
      | Workspaces => exact absurd rfl he

/-- The invariant holds after any schedule of producer arrivals and
consumer steps. -/
theorem coordRun_ok (inputs : List CoordInput) : coordOk (coordRun inputs) := by
  unfold coordRun
  have gen : ∀ (l : List CoordInput) (s : CoordState), coordOk s →
      coordOk (l.foldl coordStep s) := by
    intro l
    induction l with
    | nil => intro s h; exact h
    | cons i l ih => intro s h; exact ih _ (coordStep_ok s i h)
  exact gen inputs coordInit ⟨rfl, by simp [coordInit], by simp [coordInit]⟩

/-! ## Claims -/

/-- C1, corrected.  The spec claims `get_process_id` prefers the sender-pid
hint embedded in the notification over the bus-cache-resolved id.  The code
does the opposite: this theorem proves that whenever the cache-resolved
`process_id` is present it is returned (widened to `i64`), and the
sender-pid hint is consulted only when the cache-resolved id is absent. -/
theorem c1_prefers_cache_resolved_pid (n : NotificationData) :
    (∀ p : Nat, n.process_id = some p → n.get_process_id = some (Int.ofNat p)) ∧
    (n.process_id = none → n.get_process_id = n.notification.hints.sender_pid) := by
  constructor
  · intro p hp
    simp [NotificationData.get_process_id, hp]
  · intro hp
    simp [NotificationData.get_process_id, hp]

/-- C1, witness: a notification whose cache-resolved pid is 3 and whose
hint is absent resolves to 3. -/
theorem c1_witness :
    (NotificationData.mk ⟨"", ⟨none, none⟩⟩ (some 3)).get_process_id = some 3 :=
  (c1_prefers_cache_resolved_pid ⟨⟨"", ⟨none, none⟩⟩, some 3⟩).1 3 rfl

/-- C1, counterexample to the claim as stated: with the cache-resolved id 5
present *and* the sender-pid hint 7 present, `get_process_id` returns 5,
not the hint's value 7 as the claim asserts. -/
theorem c1_counterexample :
    (NotificationData.mk ⟨"", ⟨none, some 7⟩⟩ (some 5)).get_process_id = some 5 ∧
    some (5 : Int) ≠ some (7 : Int) :=
  ⟨rfl, by decide⟩

/-- C2, code bug.  The spec's scenario says a workspace-change signal
arriving after the first window-update event is delivered to the consumer.
In the code it never is: `create_event_stream` `take`s the deferred
workspace pair on the *first* consumed event of any kind but spawns
`forward_workspace_changes` only when that event is itself a `Workspaces`
event — an event only that (never-spawned) forwarder can produce.  The
first conjunct evaluates the coordinator on the claim's scenario (a window
update is consumed, then a workspace signal arrives and the consumer runs
again): the consumer observes only the window update and the workspace
stream is gone (`delayHeld = false`, `spawned = false`).  The second
conjunct proves that under *no* schedule is a `Workspaces` event ever
delivered, so the `EventMessage::Workspaces` arm of `run_event_loop` is
dead code. -/
theorem c2_workspaces_never_delivered :
    coordRun [.arriveWindow, .consume, .arriveWorkspace, .consume] =
      ⟨[], false, false, [.WindowUpdate]⟩ ∧
    ∀ inputs : List CoordInput, EventMessage.Workspaces ∉ (coordRun inputs).delivered := by
  refine ⟨by decide, ?_⟩
  intro inputs
  exact (coordRun_ok inputs).2.2

/-- C3, corrected (amended form).  The pid-chain walk does *not* stop at
the first match: this theorem characterizes phase 1 as marking every
non-focused buttoned window whose pid occurs anywhere on the visited
parent chain, the walk ending only when the chain terminates, resolution
fails, or fuel runs out; the `matched` flag is exactly "at least one mark
was made". -/
theorem c3_walk_marks_whole_chain (readProc : Int → ReadOutcome) (buttons : List Nat)
    (pmap : Int → Option WindowInfo) (fuel : Nat) (pid : Int) :
    phase1Loop readProc buttons pmap fuel pid [] false =
      ((chainPids readProc fuel pid).filterMap (chainMark buttons pmap),
       !((chainPids readProc fuel pid).filterMap (chainMark buttons pmap)).isEmpty) := by
  rw [phase1Loop_eq]
  simp

/-- C3, counterexample to the claim as stated: notification pid 500, window
1 has pid 500 and window 2 has pid 400 = parent(500); both are non-focused
and have buttons.  Phase 1 marks *both* windows (so it marks more than one
window, and parent resolution continued after the first match). -/
theorem c3_counterexample :
    (handle_notification
        (fun p => if p = 500 then .ok "x x x 400" else .ok "x x x 0") 2
        ⟨⟨true, fun _ => none, false, false⟩⟩ [1, 2]
        (some [⟨1, none, none, some 500, false, none⟩,
               ⟨2, none, none, some 400, false, none⟩])
        ⟨⟨"", ⟨none, none⟩⟩, some 500⟩).marks = [1, 2] ∧
    ¬ (handle_notification
        (fun p => if p = 500 then .ok "x x x 400" else .ok "x x x 0") 2
        ⟨⟨true, fun _ => none, false, false⟩⟩ [1, 2]
        (some [⟨1, none, none, some 500, false, none⟩,
               ⟨2, none, none, some 400, false, none⟩])
        ⟨⟨"", ⟨none, none⟩⟩, some 500⟩).marks.length ≤ 1 := by
  constructor
  · decide
  · decide

/-- C10, confirmed.  Before any window-update event has been processed
(`previous_snapshot` is `none`), `handle_notification` returns immediately:
no window is marked and neither matching phase runs, for every oracle,
fuel, configuration, button set and notification. -/
theorem c10_no_snapshot_no_marks (readProc : Int → ReadOutcome) (fuel : Nat)
    (settings : Settings) (buttons : List Nat) (notif : NotificationData) :
    handle_notification readProc fuel settings buttons none notif = ⟨[], false⟩ := rfl

/-- C4, corrected (amended form).  Because `ProcessWindowMap` keeps one
window per pid (the last in snapshot order), the direct-match guarantee
holds for the window the map retains: if `w` is the last window of the
snapshot whose pid equals the notification's resolved pid, `w` is not
focused and `w`'s id has a button, then `w` is marked urgent. -/
theorem c4_direct_match_marked (readProc : Int → ReadOutcome) (fuel : Nat)
    (settings : Settings) (buttons : List Nat) (l₁ l₂ : List WindowInfo)
    (w : WindowInfo) (p : Int) (notif : NotificationData)
    (hpid : notif.get_process_id = some p)
    (hw : w.pid = some p) (hfoc : w.is_focused = false)
    (hbtn : w.id ∈ buttons)
    (hlast : ∀ w' ∈ l₂, w'.pid ≠ some p)
    (hfuel : 0 < fuel) :
    w.id ∈ (handle_notification readProc fuel settings buttons
              (some (l₁ ++ w :: l₂)) notif).marks := by
  obtain ⟨f, rfl⟩ : ∃ f, fuel = f + 1 := ⟨fuel - 1, by omega⟩
  have hlookup : buildPidMap (l₁ ++ w :: l₂) p = some w :=
    buildPidMap_last l₁ l₂ w p hw hlast
  have hcm : chainMark buttons (buildPidMap (l₁ ++ w :: l₂)) p = some w.id := by
    simp [chainMark, hlookup, hfoc, hbtn]
  unfold handle_notification
  rw [hpid]
  dsimp only
  rw [phase1Loop_eq]
  simp only [chainPids, List.filterMap_cons, hcm, List.nil_append]
  simp

/-- C4, witness: a single non-focused window with pid 9 and a button is
marked when a notification resolves to pid 9. -/
theorem c4_witness :
    (5 : Nat) ∈ (handle_notification (fun _ => .ok "0 0 0 0") 1
        ⟨⟨true, fun _ => none, false, false⟩⟩ [5]
        (some [⟨5, none, none, some 9, false, none⟩])
        ⟨⟨"", ⟨none, none⟩⟩, some 9⟩).marks :=
  c4_direct_match_marked (fun _ => .ok "0 0 0 0") 1
    ⟨⟨true, fun _ => none, false, false⟩⟩ [5] [] []
    ⟨5, none, none, some 9, false, none⟩ 9 ⟨⟨"", ⟨none, none⟩⟩, some 9⟩
    rfl rfl rfl (by decide) (by simp) (by decide)

/-- C4, counterexample to the claim as stated: windows 1 and 2 both have
pid 500, both are non-focused and both have buttons, and the notification
resolves to pid 500 — yet only window 2 (the later one, which the hash map
retained) is marked; window 1 is not, although the claim demands that all
such windows be marked. -/
theorem c4_counterexample :
    (handle_notification (fun _ => .ok "x x x 0") 1
        ⟨⟨true, fun _ => none, false, false⟩⟩ [1, 2]
        (some [⟨1, none, none, some 500, false, none⟩,
               ⟨2, none, none, some 500, false, none⟩])
        ⟨⟨"", ⟨none, none⟩⟩, some 500⟩).marks = [2] ∧
    (1 : Nat) ∉ (handle_notification (fun _ => .ok "x x x 0") 1
        ⟨⟨true, fun _ => none, false, false⟩⟩ [1, 2]
        (some [⟨1, none, none, some 500, false, none⟩,
               ⟨2, none, none, some 500, false, none⟩])
        ⟨⟨"", ⟨none, none⟩⟩, some 500⟩).marks := by
  constructor
  · decide
  · decide

/-- C5, corrected (amended form).  The exact-over-fuzzy cascade holds with
"exact match" read as the source computes it — an exactly matching window
*that has a button*: when some buttoned window matches the remapped entry
exactly, precisely the buttoned exact matches are marked and no fuzzy
candidate is; when no buttoned exact match exists, the buttoned fuzzy
candidates are marked if fuzzy matching is enabled, and nothing is marked
if it is disabled.  (An exact match on a window without a button does not
set the `exact_match` flag, which is what refutes the claim as stated.) -/
theorem c5_exact_wins_among_buttoned (settings : Settings) (buttons : List Nat)
    (windows : List WindowInfo) (desktop_entry mapped_entry : String)
    (hmap : (settings.notifications_app_map desktop_entry).getD desktop_entry =
      mapped_entry) :
    (hasExactButtoned buttons mapped_entry windows = true →
      phase2marks settings buttons windows desktop_entry =
        exactButtonIds buttons mapped_entry windows) ∧
    (hasExactButtoned buttons mapped_entry windows = false →
      settings.notifications_use_fuzzy_matching = true →
      phase2marks settings buttons windows desktop_entry =
        (fuzzyIds mapped_entry windows).filter
          (fun window_id => buttons.contains window_id)) ∧
    (hasExactButtoned buttons mapped_entry windows = false →
      settings.notifications_use_fuzzy_matching = false →
      phase2marks settings buttons windows desktop_entry = []) := by
  subst hmap
  rw [phase2marks_eq]
  refine ⟨fun hex => by simp [hex], fun hex hfe => by simp [hex, hfe],
    fun hex hfe => by simp [hex, hfe]⟩

/-- C5, witness: entry "a" matches window 1 (buttoned) exactly, so the
phase-2 marks are exactly the buttoned exact matches. -/
theorem c5_witness :
    phase2marks ⟨⟨true, fun _ => none, true, true⟩⟩ [1]
        [⟨1, some "a", none, none, false, none⟩] "a" =
      exactButtonIds [1] "a" [⟨1, some "a", none, none, false, none⟩] :=
  (c5_exact_wins_among_buttoned ⟨⟨true, fun _ => none, true, true⟩⟩ [1]
    [⟨1, some "a", none, none, false, none⟩] "a" "a" rfl).1 (by decide)

/-- C5, counterexample to the claim as stated: window 1's app id equals
the entry "org.foo.Bar" exactly but window 1 has no button, while window 2
("org.foo.bar", buttoned) is only a case-insensitive fuzzy candidate.
With fuzzy matching enabled the handler marks the fuzzy candidate 2 even
though an exact match exists, contradicting "no fuzzy candidate is marked
whenever any window matches exactly". -/
theorem c5_counterexample :
    (handle_notification (fun _ => .ok "x x x 0") 1
        ⟨⟨true, fun _ => none, true, true⟩⟩ [2]
        (some [⟨1, some "org.foo.Bar", none, none, false, none⟩,
               ⟨2, some "org.foo.bar", none, none, false, none⟩])
        ⟨⟨"", ⟨some "org.foo.Bar", none⟩⟩, none⟩).marks = [2] ∧
    (⟨1, some "org.foo.Bar", none, none, false, none⟩ : WindowInfo).app_id =
      some "org.foo.Bar" ∧
    (⟨2, some "org.foo.bar", none, none, false, none⟩ : WindowInfo).app_id ≠
      some "org.foo.Bar" := by
  refine ⟨by decide, rfl, by decide⟩

/-- C6, corrected (amended form).  The pid-phase short-circuit holds with
"a window matches by pid" read as the source computes it — the walk
actually *marked* a window (a non-focused window on the chain whose id has
a button): whenever the phase-1 flag is set, the handler returns the
phase-1 marks and the identifier-matching section is never entered. -/
theorem c6_pid_match_skips_identifier (readProc : Int → ReadOutcome) (fuel : Nat)
    (settings : Settings) (buttons : List Nat) (windows : List WindowInfo)
    (notif : NotificationData) (p : Int)
    (hpid : notif.get_process_id = some p)
    (hmatched : (phase1Loop readProc buttons (buildPidMap windows) fuel p [] false).2 =
      true) :
    (handle_notification readProc fuel settings buttons (some windows)
        notif).phase2_entered = false ∧
    (handle_notification readProc fuel settings buttons (some windows) notif).marks =
      (phase1Loop readProc buttons (buildPidMap windows) fuel p [] false).1 := by
  unfold handle_notification
  rw [hpid]
  dsimp only
  simp [hmatched]

/-- C6, witness: a notification resolving to pid 3 marks the buttoned
non-focused window with pid 3 and the identifier section is skipped. -/
theorem c6_witness :
    (handle_notification (fun _ => .ok "0 0 0 0") 1
        ⟨⟨true, fun _ => none, true, true⟩⟩ [1]
        (some [⟨1, none, none, some 3, false, none⟩])
        ⟨⟨"", ⟨none, none⟩⟩, some 3⟩).phase2_entered = false ∧
    (handle_notification (fun _ => .ok "0 0 0 0") 1
        ⟨⟨true, fun _ => none, true, true⟩⟩ [1]
        (some [⟨1, none, none, some 3, false, none⟩])
        ⟨⟨"", ⟨none, none⟩⟩, some 3⟩).marks =
      (phase1Loop (fun _ => .ok "0 0 0 0") [1]
        (buildPidMap [⟨1, none, none, some 3, false, none⟩]) 1 3 [] false).1 :=
  c6_pid_match_skips_identifier (fun _ => .ok "0 0 0 0") 1
    ⟨⟨true, fun _ => none, true, true⟩⟩ [1] [⟨1, none, none, some 3, false, none⟩]
    ⟨⟨"", ⟨none, none⟩⟩, some 3⟩ 3 rfl (by decide)

/-- C6, counterexample to the claim as stated: window 1 is non-focused
with pid 500, which equals the notification's resolved pid — it matches by
pid in the claim's sense — but it has no button, so the phase-1 flag stays
unset, the identifier section runs (`phase2_entered = true`) and window 2
is marked by its app id. -/
theorem c6_counterexample :
    handle_notification (fun _ => .ok "x x x 0") 1
        ⟨⟨true, fun _ => none, true, false⟩⟩ [2]
        (some [⟨1, none, none, some 500, false, none⟩,
               ⟨2, some "x", none, none, false, none⟩])
        ⟨⟨"", ⟨some "x", none⟩⟩, some 500⟩ = ⟨[2], true⟩ ∧
    (⟨1, none, none, some 500, false, none⟩ : WindowInfo).pid =
      (⟨⟨"", ⟨some "x", none⟩⟩, some 500⟩ : NotificationData).get_process_id ∧
    (⟨1, none, none, some 500, false, none⟩ : WindowInfo).is_focused = false := by
  refine ⟨by decide, by decide, rfl⟩

/-- A query that finds its connection in the cache answers from the cache:
the response is the cached pid, no daemon lookup happens, and the entry's
expiry slides to `now + ttl`. -/
theorem cache_hit_behavior (validName : String → Bool) (daemon : String → Option Nat)
    (st : CacheStorage) (conn : String) (e : CacheEntry) (now : Nat)
    (he : st.entries conn = some e) :
    handle_cache_request validName daemon st conn now =
      ⟨{ st with
         entries := fun c =>
           if c = conn then some ⟨e.pid, now + st.ttl⟩ else st.entries c },
       some e.pid, false⟩ := by
  unfold handle_cache_request CacheStorage.retrieve
  rw [he]

/-- C7, confirmed.  The process-identity cache has sliding-TTL semantics:
(1) while an entry for a sender identity is cached, a query returns
exactly the cached value, performs no daemon lookup, and refreshes the
expiry to `now + ttl`; (2) the periodic sweep removes an entry once its
expiry is not in the future, and (3) preserves it while its expiry is
still in the future; (4) hence querying the same identity twice — a miss
that stores the daemon's answer at `t₁`, any sweeps all earlier than
`t₁ + ttl`, then a second query — answers the second query with the
identical value and no second daemon lookup. -/
theorem c7_sliding_ttl_cache (validName : String → Bool) (daemon : String → Option Nat)
    (s : CacheStorage) (conn : String) :
    (∀ (e : CacheEntry) (now : Nat), s.entries conn = some e →
      (handle_cache_request validName daemon s conn now).response = some e.pid ∧
      (handle_cache_request validName daemon s conn now).daemon_called = false ∧
      (handle_cache_request validName daemon s conn now).storage.entries conn =
        some ⟨e.pid, now + s.ttl⟩) ∧
    (∀ (e : CacheEntry) (t : Nat), s.entries conn = some e → e.expires_at ≤ t →
      (s.remove_expired t).entries conn = none) ∧
    (∀ (e : CacheEntry) (t : Nat), s.entries conn = some e → t < e.expires_at →
      (s.remove_expired t).entries conn = some e) ∧
    (∀ (p t1 t2 : Nat) (sweeps : List Nat),
      s.entries conn = none → validName conn = true → daemon conn = some p →
      (∀ t ∈ sweeps, t < t1 + s.ttl) →
      (handle_cache_request validName daemon s conn t1).daemon_called = true ∧
      (handle_cache_request validName daemon
          (sweeps.foldl (fun a t => a.remove_expired t)
            (handle_cache_request validName daemon s conn t1).storage)
          conn t2).response = some (some p) ∧
      (handle_cache_request validName daemon
          (sweeps.foldl (fun a t => a.remove_expired t)
            (handle_cache_request validName daemon s conn t1).storage)
          conn t2).daemon_called = false) := by
  refine ⟨?_, ?_, ?_, ?_⟩
  · intro e now he
    rw [cache_hit_behavior validName daemon s conn e now he]
    refine ⟨rfl, rfl, ?_⟩
    simp
  · intro e t he hle
    simp only [CacheStorage.remove_expired, he]
    rw [if_neg (by omega)]
  · intro e t he hlt
    simp only [CacheStorage.remove_expired, he]
    rw [if_pos (by omega)]
  · intro p t1 t2 sweeps hnone hv hd hts
    have hq1 : handle_cache_request validName daemon s conn t1 =
        ⟨s.store conn (some p) t1, some (some p), true⟩ := by
      unfold handle_cache_request CacheStorage.retrieve
      rw [hnone]
      simp [hv, hd]
    have hstore : (s.store conn (some p) t1).entries conn =
        some ⟨some p, t1 + s.ttl⟩ := by
      simp [CacheStorage.store]
    have hsw := sweeps_preserve conn ⟨some p, t1 + s.ttl⟩ sweeps
      (s.store conn (some p) t1) hstore (fun t ht => hts t ht)
    refine ⟨by rw [hq1], ?_, ?_⟩
    · rw [hq1]
      rw [cache_hit_behavior validName daemon _ conn ⟨some p, t1 + s.ttl⟩ t2 hsw.1]
    · rw [hq1]
      rw [cache_hit_behavior validName daemon _ conn ⟨some p, t1 + s.ttl⟩ t2 hsw.1]

/-- C7, witness: with ttl 10, a miss at time 0 stores the daemon's answer
7; after a sweep at time 3 the query at time 5 answers 7 from the cache
with no daemon lookup. -/
theorem c7_witness :
    (handle_cache_request (fun _ => true) (fun _ => some 7)
        (⟨fun _ => none, 10⟩ : CacheStorage) "c" 0).daemon_called = true ∧
    (handle_cache_request (fun _ => true) (fun _ => some 7)
        (([3] : List Nat).foldl (fun a t => a.remove_expired t)
          (handle_cache_request (fun _ => true) (fun _ => some 7)
            (⟨fun _ => none, 10⟩ : CacheStorage) "c" 0).storage)
        "c" 5).response = some (some 7) ∧
    (handle_cache_request (fun _ => true) (fun _ => some 7)
        (([3] : List Nat).foldl (fun a t => a.remove_expired t)
          (handle_cache_request (fun _ => true) (fun _ => some 7)
            (⟨fun _ => none, 10⟩ : CacheStorage) "c" 0).storage)
        "c" 5).daemon_called = false :=
  (c7_sliding_ttl_cache (fun _ => true) (fun _ => some 7)
      ⟨fun _ => none, 10⟩ "c").2.2.2 7 0 5 [3] rfl rfl rfl (by decide)

/-- C8, confirmed.  An ownership-change event with no new owner evicts the
entry keyed by the old owner's identity immediately — whatever its
remaining TTL — and the next query for that identity misses the cache and
performs a fresh daemon lookup. -/
theorem c8_ownership_loss_evicts (validName : String → Bool)
    (daemon : String → Option Nat) (s : CacheStorage)
    (args : NameOwnerChangedArgs) (old_connection : String) (now : Nat)
    (hnew : args.new_owner = none) (hold : args.old_owner = some old_connection) :
    (process_dbus_event daemon s args now).entries old_connection = none ∧
    (∀ now' : Nat, validName old_connection = true →
      (handle_cache_request validName daemon (process_dbus_event daemon s args now)
        old_connection now').daemon_called = true) := by
  have hev : process_dbus_event daemon s args now = s.evict old_connection := by
    unfold process_dbus_event
    rw [hnew, hold]
  have hent : (s.evict old_connection).entries old_connection = none := by
    simp [CacheStorage.evict]
  refine ⟨by rw [hev]; exact hent, ?_⟩
  intro now' hv
  rw [hev]
  unfold handle_cache_request CacheStorage.retrieve
  rw [hent]
  simp only [hv, if_true]
  cases hd : daemon old_connection <;> simp

/-- C8, witness: losing ownership of "o" removes its entry (stored with a
far-future expiry) and the next query calls the daemon. -/
theorem c8_witness :
    (process_dbus_event (fun _ => none)
        (⟨fun _ => some ⟨some 4, 100⟩, 10⟩ : CacheStorage)
        ⟨"n", some "o", none⟩ 0).entries "o" = none ∧
    (handle_cache_request (fun _ => true) (fun _ => none)
        (process_dbus_event (fun _ => none)
          (⟨fun _ => some ⟨some 4, 100⟩, 10⟩ : CacheStorage)
          ⟨"n", some "o", none⟩ 0)
        "o" 1).daemon_called = true :=
  ⟨(c8_ownership_loss_evicts (fun _ => true) (fun _ => none)
      ⟨fun _ => some ⟨some 4, 100⟩, 10⟩ ⟨"n", some "o", none⟩ "o" 0 rfl rfl).1,
   (c8_ownership_loss_evicts (fun _ => true) (fun _ => none)
      ⟨fun _ => some ⟨some 4, 100⟩, 10⟩ ⟨"n", some "o", none⟩ "o" 0 rfl rfl).2 1 rfl⟩

/-- C9, corrected (amended form).  `ProcessInfo.query` reads the record
once and extracts the fourth *space-separated token* (Rust
`split(' ')`, which keeps empty tokens between consecutive spaces — not
the fourth whitespace-separated field): the result is `ok none` exactly
when that token parses to 0 and `ok (some n)` when it parses to `n ≠ 0`;
it is the malformed-record error iff the fourth token is absent, the
invalid-parent-id error iff the token is present but not a valid `i64`,
and an unavailability error iff the record could not be opened
(resp. read). -/
theorem c9_query_characterization (readProc : Int → ReadOutcome) (pid : Int) :
    (ProcessInfo.query readProc pid = .error (.fileOpen pid) ↔
      readProc pid = .openFailed) ∧
    (ProcessInfo.query readProc pid = .error (.fileRead pid) ↔
      readProc pid = .readFailed) ∧
    (ProcessInfo.query readProc pid = .error (.malformedStat pid) ↔
      ∃ content, readProc pid = .ok content ∧ (splitCh ' ' content)[3]? = none) ∧
    (∀ v : String, ProcessInfo.query readProc pid = .error (.invalidPpid v pid) ↔
      ∃ content, readProc pid = .ok content ∧ (splitCh ' ' content)[3]? = some v ∧
        parseI64 v = none) ∧
    (ProcessInfo.query readProc pid = .ok ⟨none⟩ ↔
      ∃ content v, readProc pid = .ok content ∧ (splitCh ' ' content)[3]? = some v ∧
        parseI64 v = some 0) ∧
    (∀ n : Int, n ≠ 0 → (ProcessInfo.query readProc pid = .ok ⟨some n⟩ ↔
      ∃ content v, readProc pid = .ok content ∧ (splitCh ' ' content)[3]? = some v ∧
        parseI64 v = some n)) := by
  cases hr : readProc pid with
  | openFailed =>
    refine ⟨?_, ?_, ?_, ?_, ?_, ?_⟩ <;>
      simp [ProcessInfo.query, hr]
  | readFailed =>
    refine ⟨?_, ?_, ?_, ?_, ?_, ?_⟩ <;>
      simp [ProcessInfo.query, hr]
  | ok content =>
    cases ht : (splitCh ' ' content)[3]? with
    | none =>
      have hlen : (splitCh ' ' content).length ≤ 3 := by simpa using ht
      refine ⟨?_, ?_, ?_, ?_, ?_, ?_⟩ <;>
        simp [ProcessInfo.query, hr, ht, hlen]
    | some v =>
      have hlen : 3 < (splitCh ' ' content).length := by
        by_contra hcon
        rw [List.getElem?_eq_none (by omega)] at ht
        exact Option.noConfusion ht
      cases hp : parseI64 v with
      | none =>
        refine ⟨?_, ?_, ?_, ?_, ?_, ?_⟩ <;>
          simp [ProcessInfo.query, hr, ht, hp, hlen]
      | some n =>
        by_cases hn : n = 0
        · subst hn
          refine ⟨?_, ?_, ?_, ?_, ?_, ?_⟩ <;>
            simp [ProcessInfo.query, hr, ht, hp, hlen]
          intro m hm
          omega
        · refine ⟨?_, ?_, ?_, ?_, ?_, ?_⟩ <;>
            simp [ProcessInfo.query, hr, ht, hp, hn, hlen]

/-- C9, witness: on record "a b c 7" the query's success case of the
characterization holds at parent pid 7. -/
theorem c9_witness :
    ProcessInfo.query (fun _ => .ok "a b c 7") 1 = .ok ⟨some 7⟩ ↔
      ∃ content v, (fun _ : Int => ReadOutcome.ok "a b c 7") 1 = .ok content ∧
        (splitCh ' ' content)[3]? = some v ∧ parseI64 v = some 7 :=
  (c9_query_characterization (fun _ => .ok "a b c 7") 1).2.2.2.2.2 7 (by decide)

/-- C9, counterexample to the claim as stated: the record "0  0 7" (with a
doubled space) has only three whitespace-separated fields, so the claim
predicts the malformed-record error — but `split(' ')` yields the tokens
["0", "", "0", "7"], the fourth token is "7", and the query succeeds with
parent pid 7. -/
theorem c9_counterexample :
    ProcessInfo.query (fun _ => .ok "0  0 7") 1 = .ok ⟨some 7⟩ ∧
    whitespaceFields "0  0 7" = ["0", "0", "7"] := by
  exact ⟨rfl, by decide⟩
